import Mathlib

/-!
Verification of the job-state resolution core of MonitorCronJobs
(`core.py`), shallowly embedded in Lean 4.

External effects (process-table queries via `pgrep`, filesystem glob,
`os.path.getmtime`, file reads, the wall clock, home-directory expansion
and local-timezone timestamp conversion) are modelled as an explicit
environment record `Env`; the decision logic of `core.py` is translated
function by function on top of it.  Python `datetime` values are modelled
by a civil-time record `PyDateTime`, and the pieces of CPython's
`datetime` module that the code relies on (`date()` equality and
`isocalendar()`) are translated from the CPython implementation
(proleptic-Gregorian ordinals and the ISO week-1-Monday computation).
-/

/-- Mirrors `JobStatus` in `enums.py` (a `StrEnum` with eight values). -/
inductive JobStatus where
  | STALE
  | ERROR
  | FAILED
  | RUNNING
  | SUCCESS
  | CRASHED
  | MISSING
  | UNKNOWN
deriving DecidableEq, Repr

/-- Civil time, modelling a Python `datetime.datetime` value (naive, to
second precision, which is all the code compares). -/
structure PyDateTime where
  year : Int
  month : Int
  day : Int
  hour : Int
  minute : Int
  second : Int
deriving DecidableEq, Repr

/-- Mirrors `Job` in `models.py`.  `frequency` is a `JobFrequency`
`StrEnum` value in Python; since `StrEnum` members compare equal to their
string values (which is what the dictionary lookup in
`is_execution_within_current_interval` uses), it is modelled as the
underlying string. -/
structure Job where
  name : String
  frequency : String
  log_pattern : String
  process_pattern : String
deriving DecidableEq, Repr

/-- Mirrors `JobState` in `models.py`. -/
structure JobState where
  status : JobStatus
  message : String
  file : Option String
  last_modification_time : Option PyDateTime := none
deriving DecidableEq, Repr

/-- One unit of raw file content as seen by `open(..., errors="replace")`:
either a correctly decoded character or an undecodable byte sequence. -/
inductive RawUnit where
  | valid (c : Char)
  | invalid
deriving DecidableEq, Repr

/-- Python's `errors="replace"` decoding: undecodable input is replaced by
U+FFFD instead of raising, so decoding is a total function. -/
def decodeReplace (raw : List RawUnit) : String :=
  String.mk (raw.map fun u =>
    match u with
    | .valid c => c
    | .invalid => Char.ofNat 0xFFFD)

/-- The external world `core.py` interacts with. -/
structure Env where
  /-- Result of `subprocess.call(["pgrep", "-f", p], ...)`: the exit code,
  or `.error` when the call raises (tool missing, permission denied, ...). -/
  pgrep : String → Except String Int
  /-- `os.path.expanduser`: home-directory shorthand expansion, determined
  by the caller's environment (`$HOME`, the passwd database). -/
  expanduser : String → String
  /-- `glob.glob`: the list of filesystem entries matching a pattern. -/
  glob : String → List String
  /-- `os.path.getmtime`: raw modification timestamp of a path. -/
  getmtime : String → Int
  /-- `datetime.fromtimestamp`: raw timestamp to local civil time
  (depends on the host timezone, hence part of the environment). -/
  fromtimestamp : Int → PyDateTime
  /-- `open(path).read()` with `errors="replace"`: the raw content units,
  or `.error` with the exception's description when the read raises. -/
  readRaw : String → Except String (List RawUnit)
  /-- `datetime.now()`. -/
  now : PyDateTime

/- ---------------------------------------------------------------------
CPython `datetime` arithmetic used by the frequency checks, translated
from the pure-Python reference implementation in `Lib/datetime.py`.
Python's `//` and `%` are floor division / nonnegative-remainder for the
positive divisors used here, i.e. `Int.ediv` / `Int.emod`.
--------------------------------------------------------------------- -/

/-- CPython `_is_leap`. -/
def pyIsLeap (y : Int) : Bool :=
  Int.emod y 4 == 0 && (Int.emod y 100 != 0 || Int.emod y 400 == 0)

/-- CPython `_days_before_year`: days before January 1 of `y` in the
proleptic Gregorian calendar. -/
def daysBeforeYear (y : Int) : Int :=
  (y - 1) * 365 + Int.ediv (y - 1) 4 - Int.ediv (y - 1) 100
    + Int.ediv (y - 1) 400

/-- CPython `_DAYS_BEFORE_MONTH` table (for a non-leap year). -/
def daysBeforeMonthTable : List Int :=
  [0, 31, 59, 90, 120, 151, 181, 212, 243, 273, 304, 334]

/-- CPython `_days_before_month`. -/
def daysBeforeMonth (y m : Int) : Int :=
  daysBeforeMonthTable.getD (m - 1).toNat 0
    + (if m > 2 && pyIsLeap y then 1 else 0)

/-- CPython `_ymd2ord`: proleptic Gregorian ordinal, with day 1 being
0001-01-01. -/
def ymd2ord (y m d : Int) : Int :=
  daysBeforeYear y + daysBeforeMonth y m + d

/-- CPython `_isoweek1monday`: ordinal of the Monday starting ISO week 1
of `year` (the week containing the year's first Thursday). -/
def isoweek1monday (year : Int) : Int :=
  let firstday := ymd2ord year 1 1
  let firstweekday := Int.emod (firstday + 6) 7
  let week1monday := firstday - firstweekday
  if firstweekday > 3 then week1monday + 7 else week1monday

/-- CPython `datetime.isocalendar()`: the ISO-8601
(week-numbering year, week number, weekday) triple. -/
def isocalendar (d : PyDateTime) : Int × Int × Int :=
  let today := ymd2ord d.year d.month d.day
  let week := Int.ediv (today - isoweek1monday d.year) 7
  let dayIdx := Int.emod (today - isoweek1monday d.year) 7
  if week < 0 then
    let year := d.year - 1
    let week := Int.ediv (today - isoweek1monday year) 7
    let dayIdx := Int.emod (today - isoweek1monday year) 7
    (year, week + 1, dayIdx + 1)
  else if week ≥ 52 && today ≥ isoweek1monday (d.year + 1) then
    (d.year + 1, 1, dayIdx + 1)
  else
    (d.year, week + 1, dayIdx + 1)

/-- Python `datetime.date()`, to the extent the code compares it:
the (year, month, day) triple. -/
def PyDateTime.date (d : PyDateTime) : Int × Int × Int :=
  (d.year, d.month, d.day)

/-- The first two components of `isocalendar()`, i.e. Python's
`isocalendar()[:2]`. -/
def isoYearWeek (d : PyDateTime) : Int × Int :=
  ((isocalendar d).1, (isocalendar d).2.1)

/- ---------------------------------------------------------------------
`core.py`, translated function by function.
--------------------------------------------------------------------- -/

/-- `MARKER_FAILED` in `core.py`. -/
def MARKER_FAILED : String := "[JOB FAILED]"

/-- `MARKER_SUCCESS` in `core.py`. -/
def MARKER_SUCCESS : String := "[JOB SUCCEEDED]"

/-- `MARKER_STARTED` in `core.py`. -/
def MARKER_STARTED : String := "[JOB STARTED]"

/-- Python's `marker in content` substring test. -/
def occursIn (marker content : String) : Bool :=
  decide (List.IsInfix marker.toList content.toList)

/-- `_check_daily` in `core.py`:
`last_run.date() == current_time.date()`. -/
def _check_daily (last_run current_time : PyDateTime) : Bool :=
  last_run.date == current_time.date

/-- `_check_weekly` in `core.py`:
`last_run.isocalendar()[:2] == current_time.isocalendar()[:2]`. -/
def _check_weekly (last_run current_time : PyDateTime) : Bool :=
  isoYearWeek last_run == isoYearWeek current_time

/-- `_check_monthly` in `core.py`. -/
def _check_monthly (last_run current_time : PyDateTime) : Bool :=
  (last_run.month == current_time.month) && (last_run.year == current_time.year)

/-- `FREQUENCY_STRATEGIES` in `core.py`: a dictionary keyed by the
`JobFrequency` values (as strings). -/
def FREQUENCY_STRATEGIES : List (String × (PyDateTime → PyDateTime → Bool)) :=
  [("daily", _check_daily), ("weekly", _check_weekly), ("monthly", _check_monthly)]

/-- `is_execution_within_current_interval` in `core.py`.  The optional
`current_time=None` parameter (defaulted to `datetime.now()`) is made
explicit; `get_job_state` passes `env.now`. -/
def is_execution_within_current_interval (last_run : PyDateTime)
    (frequency : String) (current_time : PyDateTime) : Bool :=
  match FREQUENCY_STRATEGIES.lookup frequency with
  | none => false
  | some check_strategy => check_strategy last_run current_time

/-- `is_job_running` in `core.py`.  Python's `if not pattern` is true for
both `None` and the empty string; a raised `subprocess` exception is
swallowed to `False`. -/
def is_job_running (env : Env) (pattern : Option String) : Bool :=
  match pattern with
  | none => false
  | some p =>
    if p = "" then false
    else
      match env.pgrep p with
      | .ok returncode => returncode == 0
      | .error _ => false

/-- Python's `max(files, key=k)`: the first element attaining the maximal
key (later elements replace the current best only when strictly greater). -/
def pyMaxByKey (k : String → Int) : List String → Option String
  | [] => none
  | x :: xs => some (xs.foldl (fun best y => if k y > k best then y else best) x)

/-- `get_latest_log_file` in `core.py`. -/
def get_latest_log_file (env : Env) (job : Job) : Option String :=
  let log_pattern := env.expanduser job.log_pattern
  let files := env.glob log_pattern
  pyMaxByKey env.getmtime files

/-- The marker classification inside `_analyze_log_file` in `core.py`,
applied to the decoded content. -/
def classify_content (content : String) (filepath : String)
    (modification_time : PyDateTime) : JobState :=
  if occursIn MARKER_FAILED content then
    { status := .FAILED, message := "Failed", file := some filepath,
      last_modification_time := some modification_time }
  else if occursIn MARKER_SUCCESS content then
    { status := .SUCCESS, message := "Finished", file := some filepath,
      last_modification_time := some modification_time }
  else if occursIn MARKER_STARTED content then
    { status := .CRASHED, message := "Crashed", file := some filepath,
      last_modification_time := some modification_time }
  else
    { status := .UNKNOWN, message := "Unknown log format", file := some filepath,
      last_modification_time := some modification_time }

/-- `_analyze_log_file` in `core.py`: read with `errors="replace"`,
classify by markers; a raised read exception yields `ERROR` with the
exception's description and no timestamp. -/
def _analyze_log_file (env : Env) (filepath : String)
    (modification_time : PyDateTime) : JobState :=
  match env.readRaw filepath with
  | .error e =>
    { status := .ERROR, message := e, file := some filepath,
      last_modification_time := none }
  | .ok raw => classify_content (decodeReplace raw) filepath modification_time

/-- `get_job_state` in `core.py`.  Python's `if not latest_file` is true
for both `None` and the empty string. -/
def get_job_state (env : Env) (job : Job) : JobState :=
  if is_job_running env (some job.process_pattern) then
    { status := .RUNNING, message := "Process active",
      file := get_latest_log_file env job, last_modification_time := none }
  else
    match get_latest_log_file env job with
    | none =>
      { status := .MISSING, message := "No logs found", file := none,
        last_modification_time := none }
    | some latest_file =>
      if latest_file = "" then
        { status := .MISSING, message := "No logs found", file := none,
          last_modification_time := none }
      else
        let last_log_modification_time :=
          env.fromtimestamp (env.getmtime latest_file)
        if ¬ is_execution_within_current_interval last_log_modification_time
            job.frequency env.now then
          { status := .STALE, message := "Pending", file := some latest_file,
            last_modification_time := some last_log_modification_time }
        else
          _analyze_log_file env latest_file last_log_modification_time

/- ---------------------------------------------------------------------
Concrete environments used to instantiate the theorems.
--------------------------------------------------------------------- -/

/-- A fixed civil time used in concrete instantiations. -/
def testDT : PyDateTime := ⟨2026, 2, 1, 12, 0, 0⟩

/-- A baseline environment: the process probe raises, no file matches any
pattern, every read raises. -/
def baseEnv : Env where
  pgrep := fun _ => .error "FileNotFoundError"
  expanduser := id
  glob := fun _ => []
  getmtime := fun _ => 0
  fromtimestamp := fun _ => testDT
  readRaw := fun _ => .error "unreadable"
  now := testDT

/-- Job and environment instantiating the RUNNING short-circuit: the
process probe succeeds with exit code 0 and one log file matches. -/
def jobC1 : Job := ⟨"nightly backup", "daily", "~/logs/backup_*.log", "backup.sh"⟩

/-- Environment for the RUNNING short-circuit instantiation. -/
def envC1 : Env :=
  { baseEnv with
      pgrep := fun _ => .ok 0
      glob := fun _ => ["/home/u/logs/backup_1.log"]
      readRaw := fun _ => .ok (MARKER_FAILED.toList.map RawUnit.valid) }

/-- Claim C1: when the liveness probe reports the job's process pattern as
alive, `get_job_state` returns RUNNING with message "Process active", the
latest log path attached (possibly absent) and no modification time —
regardless of any log content or freshness, since the environment's read,
timestamp and clock are unconstrained. -/
theorem running_short_circuit (env : Env) (job : Job)
    (h : is_job_running env (some job.process_pattern) = true) :
    get_job_state env job =
      { status := .RUNNING, message := "Process active",
        file := get_latest_log_file env job, last_modification_time := none } := by
  simp [get_job_state, h]

/-- Instantiation of `running_short_circuit`: a live process with a log
file whose content holds the failure marker still reports RUNNING. -/
theorem running_short_circuit_witness :
    get_job_state envC1 jobC1 =
      { status := .RUNNING, message := "Process active",
        file := some "/home/u/logs/backup_1.log",
        last_modification_time := none } :=
  running_short_circuit envC1 jobC1 rfl

/-- Claim C7: the liveness probe never raises and returns a boolean; an
absent or empty pattern yields `false` in every environment (so no
external query can influence the result), and a raised query yields
`false`. -/
theorem liveness_probe_never_raises (env : Env) :
    is_job_running env none = false
    ∧ is_job_running env (some "") = false
    ∧ ∀ p e, env.pgrep p = .error e → is_job_running env (some p) = false := by
  refine ⟨rfl, rfl, fun p e h => ?_⟩
  by_cases hp : p = "" <;> simp [is_job_running, hp, h]

/-- Instantiation of `liveness_probe_never_raises` in the baseline
environment, whose process query raises `FileNotFoundError`. -/
theorem liveness_probe_never_raises_witness :
    is_job_running baseEnv (some "backup.sh") = false :=
  (liveness_probe_never_raises baseEnv).2.2 "backup.sh" "FileNotFoundError" rfl

/-- Claim C8: a frequency tag with no entry in `FREQUENCY_STRATEGIES`
makes the window evaluator return `false` (it is total, hence it never
raises). -/
theorem unknown_frequency_defaults_false (last_run current_time : PyDateTime)
    (freq : String) (h1 : freq ≠ "daily") (h2 : freq ≠ "weekly")
    (h3 : freq ≠ "monthly") :
    is_execution_within_current_interval last_run freq current_time = false := by
  have e1 : (freq == "daily") = false := beq_eq_false_iff_ne.mpr h1
  have e2 : (freq == "weekly") = false := beq_eq_false_iff_ne.mpr h2
  have e3 : (freq == "monthly") = false := beq_eq_false_iff_ne.mpr h3
  simp [is_execution_within_current_interval, FREQUENCY_STRATEGIES,
    List.lookup, e1, e2, e3]

/-- Instantiation of `unknown_frequency_defaults_false` at the
unrecognized tag "hourly". -/
theorem unknown_frequency_defaults_false_witness :
    is_execution_within_current_interval testDT "hourly" testDT = false :=
  unknown_frequency_defaults_false testDT testDT "hourly"
    (by decide) (by decide) (by decide)

/-- Job instantiating the MISSING case: empty process pattern, and the
baseline environment matches no files. -/
def jobC10 : Job := ⟨"report", "weekly", "~/logs/report_*.log", ""⟩

/-- Claim C10: when the liveness probe is false and the glob matches zero
files, `get_job_state` returns MISSING with message "No logs found", no
file and no modification time; the environment's read function, clock and
frequency strategies are unconstrained, so no window evaluation or
content read affects the result. -/
theorem missing_when_no_logs (env : Env) (job : Job)
    (hrun : is_job_running env (some job.process_pattern) = false)
    (hglob : env.glob (env.expanduser job.log_pattern) = []) :
    get_job_state env job =
      { status := .MISSING, message := "No logs found", file := none,
        last_modification_time := none } := by
  have hlatest : get_latest_log_file env job = none := by
    simp [get_latest_log_file, hglob, pyMaxByKey]
  simp [get_job_state, hrun, hlatest]

/-- Instantiation of `missing_when_no_logs`: an empty process pattern and
an empty glob yield MISSING in the baseline environment. -/
theorem missing_when_no_logs_witness :
    get_job_state baseEnv jobC10 =
      { status := .MISSING, message := "No logs found", file := none,
        last_modification_time := none } :=
  missing_when_no_logs baseEnv jobC10 rfl rfl

/-- Claim C3: the classifier applies a strict priority of substring
checks anywhere in the content — failure marker first (FAILED/"Failed"),
then success (SUCCESS/"Finished"), then start (CRASHED/"Crashed"), else
UNKNOWN/"Unknown log format" — and all four branches carry the supplied
file path and modification timestamp.  Content with both the failure and
the success marker falls under the first conjunct, hence FAILED. -/
theorem marker_priority (content filepath : String) (mt : PyDateTime) :
    (occursIn MARKER_FAILED content = true →
      classify_content content filepath mt =
        { status := .FAILED, message := "Failed", file := some filepath,
          last_modification_time := some mt })
    ∧ (occursIn MARKER_FAILED content = false →
        occursIn MARKER_SUCCESS content = true →
      classify_content content filepath mt =
        { status := .SUCCESS, message := "Finished", file := some filepath,
          last_modification_time := some mt })
    ∧ (occursIn MARKER_FAILED content = false →
        occursIn MARKER_SUCCESS content = false →
        occursIn MARKER_STARTED content = true →
      classify_content content filepath mt =
        { status := .CRASHED, message := "Crashed", file := some filepath,
          last_modification_time := some mt })
    ∧ (occursIn MARKER_FAILED content = false →
        occursIn MARKER_SUCCESS content = false →
        occursIn MARKER_STARTED content = false →
      classify_content content filepath mt =
        { status := .UNKNOWN, message := "Unknown log format",
          file := some filepath, last_modification_time := some mt }) := by
  refine ⟨fun hF => ?_, fun hF hS => ?_, fun hF hS hT => ?_, fun hF hS hT => ?_⟩ <;>
    simp_all [classify_content]

/-- Instantiation of `marker_priority`: content holding both terminal
markers classifies as FAILED, with path and timestamp attached. -/
theorem marker_priority_witness :
    classify_content "[JOB STARTED] x [JOB FAILED] y [JOB SUCCEEDED]"
        "/tmp/a.log" testDT =
      { status := .FAILED, message := "Failed", file := some "/tmp/a.log",
        last_modification_time := some testDT } :=
  (marker_priority "[JOB STARTED] x [JOB FAILED] y [JOB SUCCEEDED]"
    "/tmp/a.log" testDT).1 (by decide)

/-- Environment whose file content is a single undecodable byte. -/
def envC6 : Env := { baseEnv with readRaw := fun _ => .ok [RawUnit.invalid] }

/-- Claim C6: when reading the file raises, `_analyze_log_file` yields
ERROR carrying the failure's description, the file path, and no
modification time; when the read succeeds — undecodable bytes included,
since `errors="replace"` decoding is total — the result is the marker
classification of the replacement-decoded text, which is never ERROR. -/
theorem read_failure_yields_error (env : Env) (filepath : String)
    (mt : PyDateTime) :
    (∀ e, env.readRaw filepath = .error e →
      _analyze_log_file env filepath mt =
        { status := .ERROR, message := e, file := some filepath,
          last_modification_time := none })
    ∧ (∀ raw, env.readRaw filepath = .ok raw →
        _analyze_log_file env filepath mt =
          classify_content (decodeReplace raw) filepath mt
        ∧ (_analyze_log_file env filepath mt).status ≠ .ERROR) := by
  constructor
  · intro e h
    simp [_analyze_log_file, h]
  · intro raw h
    have heq : _analyze_log_file env filepath mt =
        classify_content (decodeReplace raw) filepath mt := by
      simp [_analyze_log_file, h]
    refine ⟨heq, ?_⟩
    rw [heq]
    unfold classify_content
    split_ifs <;> simp

/-- Instantiation of `read_failure_yields_error`: a raising read in the
baseline environment yields ERROR with its description, and a read of one
undecodable byte still classifies (as the replacement-decoded text). -/
theorem read_failure_yields_error_witness :
    _analyze_log_file baseEnv "/tmp/a.log" testDT =
      { status := .ERROR, message := "unreadable", file := some "/tmp/a.log",
        last_modification_time := none }
    ∧ _analyze_log_file envC6 "/tmp/a.log" testDT =
        classify_content (decodeReplace [RawUnit.invalid]) "/tmp/a.log" testDT :=
  ⟨(read_failure_yields_error baseEnv "/tmp/a.log" testDT).1 "unreadable" rfl,
   ((read_failure_yields_error envC6 "/tmp/a.log" testDT).2
     [RawUnit.invalid] rfl).1⟩

/-- Job instantiating the STALE precedence case. -/
def jobC2 : Job := ⟨"sync", "daily", "~/logs/sync_*.log", "sync.sh"⟩

/-- Environment for the STALE instantiation: one matching log, modified
yesterday relative to the clock, whose content holds the success
marker. -/
def envC2 : Env :=
  { baseEnv with
      glob := fun _ => ["/home/u/logs/sync_1.log"]
      getmtime := fun _ => 100
      fromtimestamp := fun _ => ⟨2026, 1, 31, 23, 0, 0⟩
      readRaw := fun _ => .ok (MARKER_SUCCESS.toList.map RawUnit.valid)
      now := ⟨2026, 2, 1, 0, 1, 0⟩ }

/-- Claim C2: when the probe is false, the glob matched a latest file,
and that file's modification time is outside the current frequency
window, `get_job_state` returns STALE with message "Pending", the file
path and that timestamp — for every read function, so the file content
(success marker included) is never consulted.  The `f ≠ ""` hypothesis
records that glob results are real paths (Python's `if not latest_file`
also treats an empty string as no file). -/
theorem stale_when_outside_window (env : Env) (job : Job) (f : String)
    (hrun : is_job_running env (some job.process_pattern) = false)
    (hlatest : get_latest_log_file env job = some f)
    (hne : f ≠ "")
    (hwin : is_execution_within_current_interval
      (env.fromtimestamp (env.getmtime f)) job.frequency env.now = false) :
    get_job_state env job =
      { status := .STALE, message := "Pending", file := some f,
        last_modification_time := some (env.fromtimestamp (env.getmtime f)) } := by
  simp [get_job_state, hrun, hlatest, hne, hwin]

/-- Instantiation of `stale_when_outside_window`: a log from yesterday
containing the success marker is reported STALE/"Pending", not SUCCESS. -/
theorem stale_when_outside_window_witness :
    get_job_state envC2 jobC2 =
      { status := .STALE, message := "Pending",
        file := some "/home/u/logs/sync_1.log",
        last_modification_time := some ⟨2026, 1, 31, 23, 0, 0⟩ } :=
  stale_when_outside_window envC2 jobC2 "/home/u/logs/sync_1.log"
    rfl rfl (by decide) (by decide)

/-- Claim C4: the frequency-window evaluator agrees with the calendar
periods — daily iff the (year, month, day) triples coincide (independent
of time-of-day, which does not occur in the right-hand side); weekly iff
the ISO (week-numbering year, week number) pairs coincide, so two
consecutive Mondays (2026-01-19 and 2026-01-26) are outside the window;
monthly iff the (year, month) pairs coincide, so the same month in
different years (2025-03 vs 2026-03) is outside the window. -/
theorem frequency_window_semantics :
    (∀ lr ct : PyDateTime,
      is_execution_within_current_interval lr "daily" ct = true ↔
        (lr.year = ct.year ∧ lr.month = ct.month ∧ lr.day = ct.day))
    ∧ (∀ lr ct : PyDateTime,
      is_execution_within_current_interval lr "weekly" ct = true ↔
        isoYearWeek lr = isoYearWeek ct)
    ∧ is_execution_within_current_interval ⟨2026, 1, 19, 10, 0, 0⟩ "weekly"
        ⟨2026, 1, 26, 10, 0, 0⟩ = false
    ∧ (∀ lr ct : PyDateTime,
      is_execution_within_current_interval lr "monthly" ct = true ↔
        (lr.year = ct.year ∧ lr.month = ct.month))
    ∧ is_execution_within_current_interval ⟨2025, 3, 10, 8, 0, 0⟩ "monthly"
        ⟨2026, 3, 10, 8, 0, 0⟩ = false := by
  have hd : FREQUENCY_STRATEGIES.lookup "daily" = some _check_daily := rfl
  have hw : FREQUENCY_STRATEGIES.lookup "weekly" = some _check_weekly := rfl
  have hm : FREQUENCY_STRATEGIES.lookup "monthly" = some _check_monthly := rfl
  refine ⟨fun lr ct => ?_, fun lr ct => ?_, by decide, fun lr ct => ?_, by decide⟩
  · simp [is_execution_within_current_interval, hd, _check_daily,
      PyDateTime.date, Prod.ext_iff]
  · simp [is_execution_within_current_interval, hw, _check_weekly]
  · simp [is_execution_within_current_interval, hm, _check_monthly, and_comm]

/-- Instantiation of `frequency_window_semantics`: same calendar date at
different times-of-day is within the daily window, and a Monday and the
Sunday of the same ISO week are within the weekly window. -/
theorem frequency_window_semantics_witness :
    is_execution_within_current_interval ⟨2026, 2, 1, 10, 0, 0⟩ "daily"
      ⟨2026, 2, 1, 23, 59, 0⟩ = true
    ∧ is_execution_within_current_interval ⟨2026, 1, 26, 10, 0, 0⟩ "weekly"
      ⟨2026, 2, 1, 15, 0, 0⟩ = true :=
  ⟨(frequency_window_semantics.1 ⟨2026, 2, 1, 10, 0, 0⟩
      ⟨2026, 2, 1, 23, 59, 0⟩).mpr (by decide),
   (frequency_window_semantics.2.1 ⟨2026, 1, 26, 10, 0, 0⟩
      ⟨2026, 2, 1, 15, 0, 0⟩).mpr (by decide)⟩

/-- The fold inside `pyMaxByKey` returns one of the candidates. -/
theorem pyFoldlMax_mem (k : String → Int) :
    ∀ (xs : List String) (x : String),
      xs.foldl (fun best y => if k y > k best then y else best) x ∈ x :: xs := by
  intro xs
  induction xs with
  | nil =>
    intro x
    simp
  | cons y ys ih =>
    intro x
    simp only [List.foldl_cons]
    by_cases hc : k y > k x
    · rw [if_pos hc]
      rcases List.mem_cons.mp (ih y) with h | h
      · rw [h]
        exact List.mem_cons.mpr (Or.inr (List.mem_cons_self _ _))
      · exact List.mem_cons.mpr (Or.inr (List.mem_cons.mpr (Or.inr h)))
    · rw [if_neg hc]
      rcases List.mem_cons.mp (ih x) with h | h
      · rw [h]
        exact List.mem_cons_self _ _
      · exact List.mem_cons.mpr (Or.inr (List.mem_cons.mpr (Or.inr h)))

/-- The fold inside `pyMaxByKey` returns a candidate with maximal key. -/
theorem pyFoldlMax_ge (k : String → Int) :
    ∀ (xs : List String) (x g : String), g ∈ x :: xs →
      k g ≤ k (xs.foldl (fun best y => if k y > k best then y else best) x) := by
  intro xs
  induction xs with
  | nil =>
    intro x g hg
    simp at hg
    subst hg
    simp
  | cons y ys ih =>
    intro x g hg
    simp only [List.foldl_cons]
    have hstep : k x ≤ k (if k y > k x then y else x)
        ∧ k y ≤ k (if k y > k x then y else x) := by
      by_cases hc : k y > k x <;> simp [hc] <;> omega
    rcases List.mem_cons.mp hg with h | h
    · subst h
      exact le_trans hstep.1 (ih _ _ (List.mem_cons_self _ _))
    · rcases List.mem_cons.mp h with h2 | h2
      · subst h2
        exact le_trans hstep.2 (ih _ _ (List.mem_cons_self _ _))
      · exact ih _ _ (List.mem_cons.mpr (Or.inr h2))

/-- Claim C9: the log-file locator globs the home-expanded pattern and
returns absent exactly when zero entries match (it is total, hence never
raises); any returned path is one of the matching entries and its
modification timestamp is greatest among them (so on ties any maximal
entry may be returned). -/
theorem latest_log_file_selection (env : Env) (job : Job) :
    (get_latest_log_file env job = none ↔
      env.glob (env.expanduser job.log_pattern) = [])
    ∧ ∀ f, get_latest_log_file env job = some f →
        f ∈ env.glob (env.expanduser job.log_pattern)
        ∧ ∀ g ∈ env.glob (env.expanduser job.log_pattern),
            env.getmtime g ≤ env.getmtime f := by
  cases hg : env.glob (env.expanduser job.log_pattern) with
  | nil =>
    constructor
    · simp [get_latest_log_file, hg, pyMaxByKey]
    · intro f hf
      simp [get_latest_log_file, hg, pyMaxByKey] at hf
  | cons x xs =>
    constructor
    · simp [get_latest_log_file, hg, pyMaxByKey]
    · intro f hf
      have hf' : xs.foldl
          (fun best y => if env.getmtime y > env.getmtime best then y else best)
          x = f := by
        simpa [get_latest_log_file, hg, pyMaxByKey] using hf
      rw [← hf']
      exact ⟨pyFoldlMax_mem env.getmtime xs x,
        fun g hgmem => pyFoldlMax_ge env.getmtime xs x g hgmem⟩

/-- Environment for the locator instantiation: two matching files with
distinct modification timestamps. -/
def envC9 : Env :=
  { baseEnv with
      glob := fun _ => ["/var/log/a.log", "/var/log/b.log"]
      getmtime := fun p => if p = "/var/log/b.log" then 5 else 1 }

/-- Job for the locator instantiation. -/
def jobC9 : Job := ⟨"etl", "monthly", "/var/log/*.log", "etl.sh"⟩

/-- Instantiation of `latest_log_file_selection`: of two matching files
the one with the larger timestamp is selected. -/
theorem latest_log_file_selection_witness :
    get_latest_log_file envC9 jobC9 = some "/var/log/b.log"
    ∧ envC9.getmtime "/var/log/a.log" ≤ envC9.getmtime "/var/log/b.log" :=
  ⟨rfl, ((latest_log_file_selection envC9 jobC9).2 "/var/log/b.log" rfl).2
    "/var/log/a.log" (by decide)⟩

/-- Environment refuting the file-absent invariant: the process is alive
and no log file matches. -/
def envC5 : Env := { baseEnv with pgrep := fun _ => .ok 0 }

/-- Job refuting the file-absent invariant. -/
def jobC5 : Job := ⟨"backup", "daily", "~/logs/*.log", "backup.sh"⟩

/-- Claim C5, counterexample: a job whose process is alive but whose glob
matches no file yields a state with status RUNNING (not MISSING) and
`file` absent — refuting "file is absent only when status is MISSING". -/
theorem file_absent_only_when_missing_counterexample :
    (get_job_state envC5 jobC5).status = .RUNNING
    ∧ (get_job_state envC5 jobC5).file = none := by decide

/-- `_analyze_log_file` always carries the supplied file path. -/
theorem analyze_log_file_file_field (env : Env) (fp : String)
    (mt : PyDateTime) :
    (_analyze_log_file env fp mt).file = some fp := by
  unfold _analyze_log_file
  cases env.readRaw fp with
  | error e => rfl
  | ok raw =>
    dsimp only
    unfold classify_content
    split_ifs <;> rfl

/-- Claim C5, amended: for every job and environment, a returned state
with `file` absent has status MISSING or RUNNING (the RUNNING
short-circuit attaches the latest log path, which may be absent when no
file matches). -/
theorem file_absent_only_when_missing_or_running (env : Env) (job : Job)
    (h : (get_job_state env job).file = none) :
    (get_job_state env job).status = .MISSING
    ∨ (get_job_state env job).status = .RUNNING := by
  by_cases hrun : is_job_running env (some job.process_pattern) = true
  · right
    simp [get_job_state, hrun]
  · rw [Bool.not_eq_true] at hrun
    cases hl : get_latest_log_file env job with
    | none =>
      left
      simp [get_job_state, hrun, hl]
    | some f =>
      by_cases hf : f = ""
      · left
        simp [get_job_state, hrun, hl, hf]
      · exfalso
        by_cases hw : is_execution_within_current_interval
            (env.fromtimestamp (env.getmtime f)) job.frequency env.now = true
        · have hfile : (get_job_state env job).file = some f := by
            simp [get_job_state, hrun, hl, hf, hw, analyze_log_file_file_field]
          rw [hfile] at h
          cases h
        · rw [Bool.not_eq_true] at hw
          have hfile : (get_job_state env job).file = some f := by
            simp [get_job_state, hrun, hl, hf, hw]
          rw [hfile] at h
          cases h

/-- Instantiation of `file_absent_only_when_missing_or_running` in the
baseline environment, where the state is MISSING with `file` absent. -/
theorem file_absent_only_when_missing_or_running_witness :
    (get_job_state baseEnv jobC5).status = .MISSING
    ∨ (get_job_state baseEnv jobC5).status = .RUNNING :=
  file_absent_only_when_missing_or_running baseEnv jobC5 rfl
